import Mathlib

/-!
Verification development for the rat_attack WebSocket-to-agent bridge
(src/src/lib.rs). The core components are shallowly embedded: JSON values,
the JSON-RPC dispatcher (process_request), the path sandbox
(validate_and_resolve_path), the text-file reader with its line filter
(apply_line_filter), the permission mediator (handle_write_text_file) over
an assoc-list model of the shared permission cache, the login URL scraper
(extract_login_url), and the _meta injection (ensure_bridge_meta).

External collaborators (the OS path canonicalizer, the filesystem, the
serde deserializers for ACP types, and the agent transport) are modelled
as oracle records of plain functions; the bridge logic itself is embedded
from the source line by line.
-/

set_option autoImplicit false

namespace RatAttack

/-- A model of serde_json values. Objects are assoc lists of fields; numbers
are modelled as integers (the bridge only ever inspects integral fields). -/
inductive Json where
  | null : Json
  | bool (b : Bool) : Json
  | num (n : Int) : Json
  | str (s : String) : Json
  | arr (xs : List Json) : Json
  | obj (fields : List (String × Json)) : Json

/-- Lookup of a key in an assoc-list map (first matching key wins, as in
serde_json maps and HashMap where keys are unique). -/
def assocGet {α : Type} (m : List (String × α)) (k : String) : Option α :=
  match m with
  | [] => none
  | (k', v) :: rest => if k' = k then some v else assocGet rest k

/-- Insertion into an assoc-list map, replacing an existing binding of the
key in place (the semantics of both serde_json Map::insert and
HashMap::insert as far as lookups are concerned). -/
def assocInsert {α : Type} (k : String) (v : α) (m : List (String × α)) :
    List (String × α) :=
  match m with
  | [] => [(k, v)]
  | (k', v') :: rest =>
      if k' = k then (k, v) :: rest else (k', v') :: assocInsert k v rest

/-- Field access on a JSON value: Value::get on an object, None otherwise. -/
def jsonGet (j : Json) (key : String) : Option Json :=
  match j with
  | .obj fields => assocGet fields key
  | _ => none

/-- Value::as_str. -/
def Json.asStr : Json → Option String
  | .str s => some s
  | _ => none

/-- Value::as_u64: Some for integers representable as u64. -/
def Json.asU64 : Json → Option Nat
  | .num n => if 0 ≤ n ∧ n < 2 ^ 64 then some n.toNat else none
  | _ => none

/-- Discriminator for objects. -/
def Json.isObj : Json → Bool
  | .obj _ => true
  | _ => false

/-- A JSON-RPC error value as built by the acp::Error constructors: a code,
a message, and optional string data (the bridge only ever attaches strings). -/
structure RpcError where
  code : Int
  message : String
  data : Option String
deriving DecidableEq

/-- acp::Error::with_data. -/
def RpcError.withData (e : RpcError) (d : String) : RpcError :=
  { e with data := some d }

def parseErrorRpc : RpcError := ⟨-32700, "Parse error", none⟩
def invalidRequestRpc : RpcError := ⟨-32600, "Invalid request", none⟩
def methodNotFoundRpc : RpcError := ⟨-32601, "Method not found", none⟩
def invalidParamsRpc : RpcError := ⟨-32602, "Invalid params", none⟩
def internalErrorRpc : RpcError := ⟨-32603, "Internal error", none⟩

/-- acp::Error::new((-32000, "Permission denied")). -/
def permissionDeniedRpc : RpcError := ⟨-32000, "Permission denied", none⟩

/-- The sandbox rejection produced by validate_and_resolve_path. -/
def pathOutsideRpc : RpcError := internalErrorRpc.withData "path outside project root"

/-- The AgentTransportError sum type of the bridge. -/
inductive AgentTransportError where
  | protocol (e : RpcError)
  | internal (message : String)
  | notImplemented

/-- AgentTransportError::into_rpc_error. -/
def AgentTransportError.into_rpc_error : AgentTransportError → RpcError
  | .protocol e => e
  | .internal message => internalErrorRpc.withData message
  | .notImplemented => internalErrorRpc.withData "agent transport not implemented"

/-- The terminal JSON-RPC reply of one request: a result or an error. -/
inductive RpcReply where
  | result (v : Json)
  | error (e : RpcError)

/-- Bool-valued test for errors of an Except (the bridge maps any transport
error of request_permission to the same reply, discarding its content). -/
def exceptIsError {ε α : Type} : Except ε α → Bool
  | .error _ => true
  | .ok _ => false

/-- str::starts_with for string literals, at the character level (the
core String.startsWith does not reduce in the kernel). -/
def strStartsWith (s pre : String) : Bool :=
  List.isPrefixOf pre.toList s.toList

/-! ## Text File Reader: line slicing (apply_line_filter, lib.rs 767-800) -/

/-- Splitting a character list at every newline; the final piece is the one
not terminated by a newline (possibly empty). Never returns the empty list. -/
def splitOnNewlineChars : List Char → List (List Char)
  | [] => [[]]
  | c :: rest =>
      if c = '\n' then [] :: splitOnNewlineChars rest
      else
        match splitOnNewlineChars rest with
        | [] => [[c]]
        | p :: ps => (c :: p) :: ps

/-- One step of Rust str::lines: a piece that was terminated by a newline
also loses one trailing carriage return. -/
def stripCRChars (p : List Char) : List Char :=
  if p.getLast? = some '\x0d' then p.dropLast else p

/-- Rust str::lines: split on newline; every piece except the final one was
newline-terminated and loses a trailing CR; a final empty piece (from a
trailing newline, or an empty string) produces no entry. -/
def rustLines (s : String) : List String :=
  let parts := splitOnNewlineChars s.toList
  let body := (parts.dropLast.map stripCRChars).map List.asString
  match parts.getLast? with
  | some [] => body
  | some lastPart => body ++ [lastPart.asString]
  | none => body

/-- Vec::join("\n") over the selected lines. -/
def joinLinesNL : List String → String
  | [] => ""
  | [s] => s
  | s :: rest => s ++ "\n" ++ joinLinesNL rest

/-- apply_line_filter from lib.rs 767-800: 1-based saturating offset and
exclusive limit over the line array. The Rust function returns
Result<String, Error> but every path is Ok, so the embedding returns the
string directly. -/
def apply_line_filter (content : String) (line_offset line_limit : Option Nat) :
    String :=
  let lines := rustLines content
  match line_offset, line_limit with
  | some offset, some limit =>
      let start_idx := min (offset - 1) lines.length
      let end_idx := min (start_idx + limit) lines.length
      if start_idx ≥ lines.length then ""
      else joinLinesNL ((lines.drop start_idx).take (end_idx - start_idx))
  | some offset, none =>
      let start_idx := min (offset - 1) lines.length
      if start_idx ≥ lines.length then ""
      else joinLinesNL (lines.drop start_idx)
  | none, some limit =>
      let end_idx := min limit lines.length
      joinLinesNL (lines.take end_idx)
  | none, none => content

/-! ## Login URL Extractor (extract_login_url, lib.rs 1120-1142)

The buffer is modelled as a list of characters; the Rust code works with
byte indices into a UTF-8 string, but every cut it makes falls on a
character boundary, so the character-level model is faithful. -/

/-- Rust char::is_whitespace: the Unicode White_Space property. -/
def rustIsWhitespaceChar (c : Char) : Bool :=
  let n := c.toNat
  decide (0x9 ≤ n ∧ n ≤ 0xD) || decide (n = 0x20) || decide (n = 0x85) ||
  decide (n = 0xA0) || decide (n = 0x1680) ||
  decide (0x2000 ≤ n ∧ n ≤ 0x200A) || decide (n = 0x2028) ||
  decide (n = 0x2029) || decide (n = 0x202F) || decide (n = 0x205F) ||
  decide (n = 0x3000)

/-- The characters that terminate a scraped login URL (lib.rs 1125). -/
def isUrlTerminator (c : Char) : Bool :=
  rustIsWhitespaceChar c || c == '"' || c == '\'' || c == '\x07' || c == '\x1b'

/-- The eight characters of the needle searched by buffer.find("https://"). -/
def httpsChars : List Char := ['h', 't', 't', 'p', 's', ':', '/', '/']

/-- str::find("https://"): index of the first position where the needle is a
prefix of the remaining buffer. -/
def findHttps : List Char → Option Nat
  | [] => none
  | c :: rest =>
      if List.isPrefixOf httpsChars (c :: rest) then some 0
      else (findHttps rest).map (· + 1)

/-- Index of the first URL-terminator character in the tail, mirroring the
char_indices loop of lib.rs 1124-1129. -/
def firstTerminatorIdx : List Char → Option Nat
  | [] => none
  | c :: rest =>
      if isUrlTerminator c then some 0
      else (firstTerminatorIdx rest).map (· + 1)

/-- str::find(char): index of the first occurrence of a character. -/
def firstIdxOfChar (t : Char) : List Char → Option Nat
  | [] => none
  | c :: rest =>
      if c = t then some 0 else (firstIdxOfChar t rest).map (· + 1)

/-- String::truncate at the first occurrence of a character, mirroring the
`if let Some(pos) = url.find(c) { url.truncate(pos) }` steps. -/
def truncateAtChar (t : Char) (l : List Char) : List Char :=
  match firstIdxOfChar t l with
  | some pos => l.take pos
  | none => l

/-- extract_login_url from lib.rs 1120-1142. -/
def extract_login_url (buffer : List Char) : Option (List Char) :=
  match findHttps buffer with
  | none => none
  | some start =>
      let tail := buffer.drop start
      let endIdx :=
        match firstTerminatorIdx tail with
        | some i => i
        | none => tail.length
      let url0 := tail.take endIdx
      let url1 := truncateAtChar '\x07' url0
      let url2 := truncateAtChar '\x1b' url1
      if url2.isEmpty then none else some url2

/-- The spec's description of the extractor: the first substring beginning
with https:// and extending up to (excluding) the first terminator after
that start, or to the end of the buffer when no terminator occurs; no URL
when the buffer has no https:// occurrence. -/
def loginUrlSpec (buffer : List Char) : Option (List Char) :=
  match findHttps buffer with
  | none => none
  | some start => some ((buffer.drop start).takeWhile (fun c => !isUrlTerminator c))

/-! ## Path Sandbox (validate_and_resolve_path, lib.rs 681-742)

Paths are strings. The OS-dependent pieces (current-directory join,
canonicalization, existence, Path::parent / file_name / join) are an
oracle record; the sandbox logic itself is embedded from the source. -/

/-- The six forbidden prefixes of lib.rs 686-692 and 731-737. -/
def forbiddenPath (s : String) : Bool :=
  strStartsWith s "/etc/" || strStartsWith s "/var/" || strStartsWith s "/root/" ||
  strStartsWith s "/usr/" || strStartsWith s "/boot/" || strStartsWith s "/proc/"

/-- Oracle for the OS path operations used by validate_and_resolve_path.
On Unix, PathBuf::is_absolute is exactly "starts with /", which is kept
concrete; the rest is abstract. -/
structure PathOracle where
  /-- current_dir()?.join(path); none models a current_dir failure. -/
  cwdJoin : String → Option String
  /-- Path::canonicalize; none models an I/O error. -/
  canonicalizePath : String → Option String
  /-- Path::exists. -/
  pathExists : String → Bool
  /-- Path::parent, as a string; none when the path has no parent. -/
  parentOf : String → Option String
  /-- Path::file_name; none when the path has no final component. -/
  fileNameOf : String → Option String
  /-- PathBuf::join of a directory and a file name. -/
  joinPath : String → String → String

/-- The resolution and canonicalization step of validate_and_resolve_path
(lib.rs 696-727): join a relative path onto the current directory, then
canonicalize — through the parent directory for writes of files that do
not exist yet — producing the canonical string that the
post-canonicalization prefix re-check then inspects. -/
def resolveCanonical (po : PathOracle) (path : String)
    (for_write : Bool) : Except RpcError String :=
  match
    (if strStartsWith path "/" then Except.ok path
     else
       match po.cwdJoin path with
       | some p => Except.ok p
       | none =>
           Except.error (internalErrorRpc.withData "failed to get current directory")
     : Except RpcError String) with
  | .error e => .error e
  | .ok resolved =>
    if for_write && !po.pathExists resolved then
      match po.parentOf resolved with
      | none => Except.error (internalErrorRpc.withData "invalid path")
      | some parent =>
        match po.canonicalizePath parent with
        | none => Except.error (internalErrorRpc.withData "invalid path")
        | some canonicalParent =>
          match po.fileNameOf resolved with
          | none => Except.error (internalErrorRpc.withData "invalid path")
          | some name => Except.ok (po.joinPath canonicalParent name)
    else
      match po.canonicalizePath resolved with
      | some c => Except.ok c
      | none =>
          Except.error (internalErrorRpc.withData
            (if for_write then "invalid path" else "file not found"))

/-- validate_and_resolve_path from lib.rs 681-742: the pre-canonicalization
prefix check, the resolution and canonicalization of lib.rs 696-727, and
the post-canonicalization prefix re-check. -/
def validate_and_resolve_path (po : PathOracle) (path : String)
    (for_write : Bool) : Except RpcError String :=
  if forbiddenPath path then
    .error (internalErrorRpc.withData "path outside project root")
  else
    match resolveCanonical po path for_write with
    | .error e => .error e
    | .ok canonicalStr =>
      if forbiddenPath canonicalStr then
        .error (internalErrorRpc.withData "path outside project root")
      else .ok canonicalStr

/-! ## Permission model and observable effects -/

/-- The cached permission decisions; the two Once outcomes are not cached. -/
inductive PermissionDecision where
  | allowAlways
  | rejectAlways
deriving DecidableEq

/-- The shared permission cache: canonical path string to decision. -/
def PermCache : Type := List (String × PermissionDecision)

/-- acp::PermissionOptionKind, restricted to the four kinds the bridge offers. -/
inductive PermissionOptionKind where
  | allowOnce
  | allowAlways
  | rejectOnce
  | rejectAlways
deriving DecidableEq

/-- One offered permission option (acp::PermissionOption). -/
structure PermissionOption where
  id : String
  name : String
  kind : PermissionOptionKind
deriving DecidableEq

/-- acp::ToolKind, restricted to the kind the bridge uses. -/
inductive ToolKind where
  | edit
deriving DecidableEq

/-- acp::ToolCallStatus, restricted to the status the bridge uses. -/
inductive ToolCallStatus where
  | inProgress
deriving DecidableEq

/-- The tool-call update embedded in a permission request (lib.rs 849-858). -/
structure ToolCallUpdate where
  id : String
  kind : Option ToolKind
  title : Option String
  status : Option ToolCallStatus
deriving DecidableEq

/-- acp::RequestPermissionRequest as composed by handle_write_text_file. -/
structure PermissionRequest where
  sessionId : String
  toolCall : ToolCallUpdate
  options : List PermissionOption
deriving DecidableEq

/-- acp::RequestPermissionOutcome. -/
inductive PermissionOutcome where
  | selected (optionId : String)
  | cancelled
deriving DecidableEq

/-- The four options offered with every write-permission request
(lib.rs 859-884). -/
def permissionOptionsList : List PermissionOption :=
  [⟨"allow_once", "Allow this write operation", .allowOnce⟩,
   ⟨"allow_always", "Allow all write operations", .allowAlways⟩,
   ⟨"reject_once", "Reject this write operation", .rejectOnce⟩,
   ⟨"reject_always", "Reject all write operations", .rejectAlways⟩]

/-- The permission request composed at lib.rs 847-886; the title uses the
client-supplied path text, not the canonical path. -/
def mkPermissionRequest (session_id path : String) : PermissionRequest :=
  { sessionId := session_id
    toolCall :=
      { id := "fs_write_text_file"
        kind := some .edit
        title := some ("Write file: " ++ path)
        status := some .inProgress }
    options := permissionOptionsList }

/-- One content block of a prompt (the bridge only builds text blocks). -/
inductive ContentBlock where
  | text (s : String)
deriving DecidableEq

/-- acp::PromptRequest as built by the session/prompt arm (lib.rs 517-521). -/
structure PromptRequest where
  sessionId : String
  prompt : List ContentBlock
deriving DecidableEq

/-- The externally observable side effects of processing one request:
agent calls, filesystem accesses, permission-cache accesses, and the
login-CLI spawn. -/
inductive BridgeEffect where
  | agentInitCall
  | agentNewSessionCall
  | agentPromptCall (req : PromptRequest)
  | agentRequestPermission (req : PermissionRequest)
  | fsReadFile (path : String)
  | fsWrite (path : String) (content : String)
  | fsCreateDirAll (path : String)
  | cacheLookup (path : String)
  | cacheInsert (path : String) (d : PermissionDecision)
  | spawnLoginCli
deriving DecidableEq

/-- Agent-contact discriminator. -/
def BridgeEffect.isAgentCall : BridgeEffect → Bool
  | .agentInitCall => true
  | .agentNewSessionCall => true
  | .agentPromptCall _ => true
  | .agentRequestPermission _ => true
  | _ => false

/-- request_permission discriminator. -/
def BridgeEffect.isPermissionRequest : BridgeEffect → Bool
  | .agentRequestPermission _ => true
  | _ => false

/-- File-write discriminator. -/
def BridgeEffect.isFsWrite : BridgeEffect → Bool
  | .fsWrite _ _ => true
  | _ => false

/-- Filesystem-access discriminator (reads, writes, directory creation). -/
def BridgeEffect.isFsAccess : BridgeEffect → Bool
  | .fsReadFile _ => true
  | .fsWrite _ _ => true
  | .fsCreateDirAll _ => true
  | _ => false

/-- Permission-cache-access discriminator. -/
def BridgeEffect.isCacheAccess : BridgeEffect → Bool
  | .cacheLookup _ => true
  | .cacheInsert _ _ => true
  | _ => false

/-! ## Text File Reader (handle_read_text_file, lib.rs 744-765) -/

/-- Oracle for the filesystem pieces of the read path: raw bytes of a file
and the UTF-8 decoder of the standard library. -/
structure ReadEnv where
  po : PathOracle
  /-- std::fs::read; none models an I/O error. -/
  readBytes : String → Option (List Nat)
  /-- String::from_utf8; none models invalid UTF-8. -/
  decodeUtf8 : List Nat → Option String

/-- handle_read_text_file from lib.rs 744-765, returning the reply together
with the filesystem accesses it performed. -/
def handle_read_text_file (renv : ReadEnv) (path : String)
    (line_offset line_limit : Option Nat) :
    Except RpcError String × List BridgeEffect :=
  match validate_and_resolve_path renv.po path false with
  | .error e => (.error e, [])
  | .ok canonical_path =>
    match renv.readBytes canonical_path with
    | none =>
        (.error (internalErrorRpc.withData "file not found"),
         [.fsReadFile canonical_path])
    | some bytes =>
      if bytes.contains 0 then
        (.error (internalErrorRpc.withData "binary file not supported"),
         [.fsReadFile canonical_path])
      else
        match renv.decodeUtf8 bytes with
        | none =>
            (.error (internalErrorRpc.withData "file contains invalid UTF-8"),
             [.fsReadFile canonical_path])
        | some content =>
            (.ok (apply_line_filter content line_offset line_limit),
             [.fsReadFile canonical_path])

/-! ## Permission Mediator (handle_write_text_file, lib.rs 803-944) -/

/-- Oracle for the write path: the path oracle, the success of the two
filesystem mutations, and the agent's request_permission endpoint. -/
structure WriteEnv where
  po : PathOracle
  /-- Whether fs::create_dir_all of the given directory succeeds. -/
  createDirAllOk : String → Bool
  /-- Whether fs::write to the given canonical path succeeds. -/
  writeOk : String → Bool
  /-- The agent transport's request_permission method. -/
  requestPermission : PermissionRequest → Except AgentTransportError PermissionOutcome

/-- The outcome of one handle_write_text_file call: the reply (Ok () is
serialized by the dispatcher as the empty object), the permission cache
after the call, and the observable effects in order. -/
structure WriteOutcome where
  result : Except RpcError Unit
  cache : PermCache
  effects : List BridgeEffect

/-- The part of handle_write_text_file after parent-directory creation:
cache consultation and the permission flow (lib.rs 824-944). -/
def writeWithDirs (env : WriteEnv) (cache : PermCache)
    (session_id path content canonical_path : String)
    (dirEffects : List BridgeEffect) : WriteOutcome :=
  match assocGet cache canonical_path with
  | some .allowAlways =>
      ⟨(if env.writeOk canonical_path then .ok ()
        else .error (internalErrorRpc.withData "failed to write file")),
       cache,
       dirEffects ++ [.cacheLookup canonical_path,
                      .fsWrite canonical_path content]⟩
  | some .rejectAlways =>
      ⟨.error permissionDeniedRpc, cache,
       dirEffects ++ [.cacheLookup canonical_path]⟩
  | none =>
    match env.requestPermission (mkPermissionRequest session_id path) with
    | .error _ =>
        ⟨.error (internalErrorRpc.withData "permission request failed"), cache,
         dirEffects ++ [.cacheLookup canonical_path,
           .agentRequestPermission (mkPermissionRequest session_id path)]⟩
    | .ok .cancelled =>
        ⟨.error ⟨-32000, "Permission request cancelled", none⟩, cache,
         dirEffects ++ [.cacheLookup canonical_path,
           .agentRequestPermission (mkPermissionRequest session_id path)]⟩
    | .ok (.selected optionId) =>
      if optionId = "allow_once" then
        ⟨(if env.writeOk canonical_path then .ok ()
          else .error (internalErrorRpc.withData "failed to write file")),
         cache,
         dirEffects ++ [.cacheLookup canonical_path,
           .agentRequestPermission (mkPermissionRequest session_id path),
           .fsWrite canonical_path content]⟩
      else if optionId = "allow_always" then
        ⟨(if env.writeOk canonical_path then .ok ()
          else .error (internalErrorRpc.withData "failed to write file")),
         assocInsert canonical_path .allowAlways cache,
         dirEffects ++ [.cacheLookup canonical_path,
           .agentRequestPermission (mkPermissionRequest session_id path),
           .cacheInsert canonical_path .allowAlways,
           .fsWrite canonical_path content]⟩
      else if optionId = "reject_once" then
        ⟨.error permissionDeniedRpc, cache,
         dirEffects ++ [.cacheLookup canonical_path,
           .agentRequestPermission (mkPermissionRequest session_id path)]⟩
      else if optionId = "reject_always" then
        ⟨.error permissionDeniedRpc,
         assocInsert canonical_path .rejectAlways cache,
         dirEffects ++ [.cacheLookup canonical_path,
           .agentRequestPermission (mkPermissionRequest session_id path),
           .cacheInsert canonical_path .rejectAlways]⟩
      else
        ⟨.error ⟨-32000, "Unknown permission option", none⟩, cache,
         dirEffects ++ [.cacheLookup canonical_path,
           .agentRequestPermission (mkPermissionRequest session_id path)]⟩

/-- handle_write_text_file from lib.rs 803-944: sandbox check, parent
directory creation, cache lookup, then the agent permission round-trip with
its outcome interpretation. -/
def handle_write_text_file (env : WriteEnv) (cache : PermCache)
    (session_id path content : String) : WriteOutcome :=
  match validate_and_resolve_path env.po path true with
  | .error e => ⟨.error e, cache, []⟩
  | .ok canonical_path =>
    match env.po.parentOf canonical_path with
    | some parent =>
      if env.createDirAllOk parent then
        writeWithDirs env cache session_id path content canonical_path
          [.fsCreateDirAll parent]
      else
        ⟨.error (internalErrorRpc.withData "failed to create parent directories"),
         cache, [.fsCreateDirAll parent]⟩
    | none => writeWithDirs env cache session_id path content canonical_path []

/-! ## Initialize response and _meta injection (ensure_bridge_meta) -/

/-- acp::InitializeResponse: the agent-provided fields are carried opaquely
as the assoc list they serialize to, next to the optional _meta value. -/
structure InitResponse where
  payload : List (String × Json)
  meta : Option Json

/-- ensure_bridge_meta from lib.rs 1144-1151: take the existing _meta when
it is an object (any other value is discarded), insert bridgeId, put back. -/
def ensure_bridge_meta (r : InitResponse) (bridge_id : String) : InitResponse :=
  let m :=
    match r.meta with
    | some (Json.obj map) => map
    | _ => []
  { r with meta := some (Json.obj (assocInsert "bridgeId" (Json.str bridge_id) m)) }

/-- Serialization of an InitResponse, with _meta skipped when absent. -/
def initRespToJson (r : InitResponse) : Json :=
  Json.obj (r.payload ++
    (match r.meta with
     | some m => [("_meta", m)]
     | none => []))

/-! ## Session Dispatcher (process_request, lib.rs 413-671) -/

/-- The per-connection environment of the dispatcher: the bridge id, the
serde deserializers for the two ACP request types that are parsed (as
abstract parsers returning the parsed request opaquely, or a diagnostic
string), the agent transport methods, the filesystem oracles, and the
outcome of the login flow. -/
structure DispatchEnv where
  bridgeId : String
  /-- serde parse of params into an acp InitializeRequest. -/
  parseInitReq : Json → Except String Json
  /-- agent.initialize. -/
  agentInit : Json → Except AgentTransportError InitResponse
  /-- serde parse of params into an acp NewSessionRequest. -/
  parseNewSessionReq : Json → Except String Json
  /-- agent.new_session, with its serialized response. -/
  agentNewSession : Json → Except AgentTransportError Json
  /-- agent.prompt, with its serialized response. -/
  agentPrompt : PromptRequest → Except AgentTransportError Json
  readEnv : ReadEnv
  writeEnv : WriteEnv
  /-- The outcome of handle_auth_cli_login. -/
  loginFlow : Except RpcError String

/-- The outcome of processing one request: the reply sent for its id, the
connection's initialized flag afterwards, the shared permission cache
afterwards, and the observable effects in order. -/
structure DispatchOut where
  reply : RpcReply
  initFlagAfter : Bool
  cache : PermCache
  effects : List BridgeEffect

/-- process_request from lib.rs 413-671. The boolean argument is the
connection's initialized flag. Parameter extraction mirrors the source:
params default to the empty object, string fields are read with as_str,
and the line_offset and line_limit u64 values are cast to u32. -/
def process_request (env : DispatchEnv) (cache : PermCache) (initFlag : Bool)
    (msg : Json) : DispatchOut :=
  match (jsonGet msg "method").bind Json.asStr with
  | none => ⟨.error invalidRequestRpc, initFlag, cache, []⟩
  | some method =>
    if method = "initialize" then
      let params := (jsonGet msg "params").getD (Json.obj [])
      match env.parseInitReq params with
      | .error diagnostic =>
          ⟨.error (invalidParamsRpc.withData diagnostic), initFlag, cache, []⟩
      | .ok req =>
        match env.agentInit req with
        | .ok resp =>
            ⟨.result (initRespToJson (ensure_bridge_meta resp env.bridgeId)),
             true, cache, [.agentInitCall]⟩
        | .error e =>
            ⟨.error e.into_rpc_error, initFlag, cache, [.agentInitCall]⟩
    else if method = "session/new" then
      if !initFlag then ⟨.error methodNotFoundRpc, initFlag, cache, []⟩
      else
        let params := (jsonGet msg "params").getD (Json.obj [])
        match env.parseNewSessionReq params with
        | .error diagnostic =>
            ⟨.error (invalidParamsRpc.withData diagnostic), initFlag, cache, []⟩
        | .ok req =>
          match env.agentNewSession req with
          | .ok resp => ⟨.result resp, initFlag, cache, [.agentNewSessionCall]⟩
          | .error e =>
              ⟨.error e.into_rpc_error, initFlag, cache, [.agentNewSessionCall]⟩
    else if method = "session/prompt" then
      if !initFlag then ⟨.error methodNotFoundRpc, initFlag, cache, []⟩
      else
        let params := (jsonGet msg "params").getD (Json.obj [])
        let session_id := ((jsonGet params "sessionId").bind Json.asStr).getD ""
        let prompt_text := ((jsonGet params "prompt").bind Json.asStr).getD ""
        let req : PromptRequest := ⟨session_id, [.text prompt_text]⟩
        match env.agentPrompt req with
        | .ok resp => ⟨.result resp, initFlag, cache, [.agentPromptCall req]⟩
        | .error e =>
            ⟨.error e.into_rpc_error, initFlag, cache, [.agentPromptCall req]⟩
    else if method = "fs/read_text_file" then
      if !initFlag then ⟨.error methodNotFoundRpc, initFlag, cache, []⟩
      else
        let params := (jsonGet msg "params").getD (Json.obj [])
        match (jsonGet params "path").bind Json.asStr with
        | none =>
            ⟨.error (invalidParamsRpc.withData "missing or invalid path parameter"),
             initFlag, cache, []⟩
        | some path =>
          let line_offset :=
            ((jsonGet params "line_offset").bind Json.asU64).map (· % 2 ^ 32)
          let line_limit :=
            ((jsonGet params "line_limit").bind Json.asU64).map (· % 2 ^ 32)
          match handle_read_text_file env.readEnv path line_offset line_limit with
          | (.ok content, fx) =>
              ⟨.result (Json.obj [("content", Json.str content)]), initFlag, cache, fx⟩
          | (.error e, fx) => ⟨.error e, initFlag, cache, fx⟩
    else if method = "fs/write_text_file" then
      if !initFlag then ⟨.error methodNotFoundRpc, initFlag, cache, []⟩
      else
        let params := (jsonGet msg "params").getD (Json.obj [])
        match (jsonGet params "sessionId").bind Json.asStr with
        | none =>
            ⟨.error (invalidParamsRpc.withData "missing or invalid sessionId parameter"),
             initFlag, cache, []⟩
        | some session_id =>
          match (jsonGet params "path").bind Json.asStr with
          | none =>
              ⟨.error (invalidParamsRpc.withData "missing or invalid path parameter"),
               initFlag, cache, []⟩
          | some path =>
            match (jsonGet params "content").bind Json.asStr with
            | none =>
                ⟨.error (invalidParamsRpc.withData "missing or invalid content parameter"),
                 initFlag, cache, []⟩
            | some content =>
              let out := handle_write_text_file env.writeEnv cache session_id path content
              match out.result with
              | .ok _ => ⟨.result (Json.obj []), initFlag, out.cache, out.effects⟩
              | .error e => ⟨.error e, initFlag, out.cache, out.effects⟩
    else if method = "auth/cli_login" then
      match env.loginFlow with
      | .ok login_url =>
          ⟨.result (Json.obj [("status", Json.str "started"),
                              ("loginUrl", Json.str login_url)]),
           initFlag, cache, [.spawnLoginCli]⟩
      | .error e => ⟨.error e, initFlag, cache, [.spawnLoginCli]⟩
    else ⟨.error methodNotFoundRpc, initFlag, cache, []⟩

/-! ## Shared sample oracles, used to instantiate witnesses -/

/-- A concrete path oracle for witnesses: canonicalization is the identity,
nothing exists yet, every path hangs off /work. -/
def samplePathOracle : PathOracle :=
  { cwdJoin := fun p => some ("/work/" ++ p)
    canonicalizePath := fun p => some p
    pathExists := fun _ => false
    parentOf := fun _ => some "/work"
    fileNameOf := fun _ => some "f.txt"
    joinPath := fun d n => d ++ "/" ++ n }

/-- A concrete read oracle for witnesses. -/
def sampleReadEnv : ReadEnv :=
  { po := samplePathOracle
    readBytes := fun _ => some [104, 105]
    decodeUtf8 := fun _ => some "hi" }

/-- A concrete write oracle whose agent selects allow_always. -/
def sampleWriteEnvAllowAlways : WriteEnv :=
  { po := samplePathOracle
    createDirAllOk := fun _ => true
    writeOk := fun _ => true
    requestPermission := fun _ => .ok (.selected "allow_always") }

/-- A concrete write oracle whose agent selects an unknown option id. -/
def sampleWriteEnvBogus : WriteEnv :=
  { po := samplePathOracle
    createDirAllOk := fun _ => true
    writeOk := fun _ => true
    requestPermission := fun _ => .ok (.selected "bogus") }

/-- A path oracle whose canonicalization resolves every path to a string
under /etc, modelling a symlink that escapes the sandbox: the supplied path
carries no forbidden prefix, but the canonical string does. -/
def sampleSymlinkOracle : PathOracle :=
  { cwdJoin := fun p => some ("/work/" ++ p)
    canonicalizePath := fun _ => some "/etc/evil"
    pathExists := fun _ => true
    parentOf := fun _ => some "/work"
    fileNameOf := fun _ => some "link.txt"
    joinPath := fun d n => d ++ "/" ++ n }

/-- A read oracle over the symlink path oracle. -/
def sampleSymlinkReadEnv : ReadEnv :=
  { po := sampleSymlinkOracle
    readBytes := fun _ => some [104]
    decodeUtf8 := fun _ => some "h" }

/-- A write oracle over the symlink path oracle. -/
def sampleSymlinkWriteEnv : WriteEnv :=
  { po := sampleSymlinkOracle
    createDirAllOk := fun _ => true
    writeOk := fun _ => true
    requestPermission := fun _ => .ok (.selected "allow_once") }

/-- A concrete dispatcher environment for witnesses. -/
def sampleDispatchEnv : DispatchEnv :=
  { bridgeId := "bridge-test-id"
    parseInitReq := fun j => .ok j
    agentInit := fun _ => .ok ⟨[("protocolVersion", Json.num 1)], none⟩
    parseNewSessionReq := fun j => .ok j
    agentNewSession := fun _ => .ok (Json.obj [])
    agentPrompt := fun _ => .ok (Json.obj [("stopReason", Json.str "end_turn")])
    readEnv := sampleReadEnv
    writeEnv := sampleWriteEnvAllowAlways
    loginFlow := .ok "https://login.example/code" }

/-! ## Assoc-map lemmas -/

theorem assocGet_assocInsert {α : Type} (k key : String) (v : α)
    (m : List (String × α)) :
    assocGet (assocInsert k v m) key =
      if k = key then some v else assocGet m key := by
  induction m with
  | nil => simp [assocInsert, assocGet]
  | cons hd tl ih =>
      obtain ⟨k', v'⟩ := hd
      by_cases hk : k' = k
      · subst hk
        by_cases hkey : k' = key <;> simp [assocInsert, assocGet, hkey]
      · by_cases hkey : k' = key
        · subst hkey
          have : ¬k = k' := fun h => hk h.symm
          simp [assocInsert, assocGet, hk, this]
        · simp [assocInsert, assocGet, hk, hkey, ih]

/-- A concrete initialize request message for witnesses. -/
def sampleInitMsg : Json :=
  Json.obj [("id", Json.num 1), ("method", Json.str "initialize")]

/-- A concrete agent response carrying a _meta object, for witnesses. -/
def sampleMetaResp : InitResponse :=
  ⟨[("x", Json.num 2)], some (Json.obj [("trace", Json.bool true)])⟩

/-- C5: on every successful initialize call the result is the agent's
response with bridgeId injected into _meta; the injected map binds
bridgeId to the configured identifier and preserves every other key of an
agent-provided _meta object; an absent _meta becomes the singleton
bridgeId object. The dispatcher replies with exactly this spliced response
and sets the initialized flag. -/
theorem bridge_meta_injection (r : InitResponse) (bid : String)
    (env : DispatchEnv) (cache : PermCache) (flag : Bool) (msg : Json)
    (req : Json) (resp : InitResponse)
    (hm : (jsonGet msg "method").bind Json.asStr = some "initialize")
    (hp : env.parseInitReq ((jsonGet msg "params").getD (Json.obj [])) = .ok req)
    (ha : env.agentInit req = .ok resp) :
    (∃ m, (ensure_bridge_meta r bid).meta = some (Json.obj m) ∧
      assocGet m "bridgeId" = some (Json.str bid) ∧
      (∀ om k, r.meta = some (Json.obj om) → k ≠ "bridgeId" →
        assocGet m k = assocGet om k)) ∧
    (r.meta = none →
      (ensure_bridge_meta r bid).meta = some (Json.obj [("bridgeId", Json.str bid)])) ∧
    (process_request env cache flag msg).reply =
      .result (initRespToJson (ensure_bridge_meta resp env.bridgeId)) ∧
    (process_request env cache flag msg).initFlagAfter = true := by
  refine ⟨⟨assocInsert "bridgeId" (Json.str bid)
      (match r.meta with
       | some (Json.obj map) => map
       | _ => []), rfl, ?_, ?_⟩, ?_, ?_, ?_⟩
  · rw [assocGet_assocInsert]; simp
  · intro om k hom hk
    rw [hom, assocGet_assocInsert, if_neg (fun h => hk h.symm)]
  · intro hnone
    simp [ensure_bridge_meta, hnone, assocInsert]
  · simp only [process_request, hm, Option.bind_some, hp, ha, if_true]
  · simp only [process_request, hm, Option.bind_some, hp, ha, if_true]

/-- Witness for C5 at a concrete agent response and message. -/
theorem bridge_meta_injection_witness :
    (∃ m, (ensure_bridge_meta sampleMetaResp "bridge-test-id").meta =
        some (Json.obj m) ∧
      assocGet m "bridgeId" = some (Json.str "bridge-test-id") ∧
      (∀ om k, sampleMetaResp.meta = some (Json.obj om) → k ≠ "bridgeId" →
        assocGet m k = assocGet om k)) ∧
    (sampleMetaResp.meta = none →
      (ensure_bridge_meta sampleMetaResp "bridge-test-id").meta =
        some (Json.obj [("bridgeId", Json.str "bridge-test-id")])) ∧
    (process_request sampleDispatchEnv [] false sampleInitMsg).reply =
      .result (initRespToJson
        (ensure_bridge_meta ⟨[("protocolVersion", Json.num 1)], none⟩
          sampleDispatchEnv.bridgeId)) ∧
    (process_request sampleDispatchEnv [] false sampleInitMsg).initFlagAfter = true :=
  bridge_meta_injection sampleMetaResp "bridge-test-id" sampleDispatchEnv []
    false sampleInitMsg (Json.obj []) ⟨[("protocolVersion", Json.num 1)], none⟩
    rfl rfl rfl

/-- C9: an agent _meta value that is present but not an object is discarded
entirely; the reply's _meta is the singleton bridgeId object. -/
theorem meta_nonobject_discarded (r : InitResponse) (bid : String) (j : Json)
    (hmeta : r.meta = some j) (hnotobj : j.isObj = false) :
    (ensure_bridge_meta r bid).meta =
      some (Json.obj [("bridgeId", Json.str bid)]) := by
  cases j <;> simp_all [ensure_bridge_meta, assocInsert, Json.isObj]

/-- Witness for C9 at a string-valued _meta. -/
theorem meta_nonobject_discarded_witness :
    (ensure_bridge_meta ⟨[], some (Json.str "weird")⟩ "bridge-test-id").meta =
      some (Json.obj [("bridgeId", Json.str "bridge-test-id")]) :=
  meta_nonobject_discarded ⟨[], some (Json.str "weird")⟩ "bridge-test-id"
    (Json.str "weird") rfl rfl

/-! ## Line filter lemmas (C6) -/

theorem take_min_len {α : Type} (l : List α) (n : Nat) :
    l.take (min n l.length) = l.take n := by
  induction l generalizing n with
  | nil => simp
  | cons a t ih =>
      cases n with
      | zero => simp
      | succ m => simp [Nat.succ_min_succ, ih]

/-- C6: line slicing of fs/read_text_file.  With L the line array of the
decoded text: both bounds absent returns the full text; limit alone returns
the first min(N, |L|) lines; offset alone returns lines (M-1)..; both
return lines [(M-1), (M-1)+N) clipped to |L|; offset 0 is treated as
offset 1 by the saturating subtraction; an offset past the end yields the
empty string as a successful result. -/
theorem line_filter_semantics (content : String) (M N : Nat) :
    apply_line_filter content none none = content ∧
    apply_line_filter content none (some N) =
      joinLinesNL ((rustLines content).take (min N (rustLines content).length)) ∧
    apply_line_filter content (some M) none =
      joinLinesNL ((rustLines content).drop (M - 1)) ∧
    apply_line_filter content (some M) (some N) =
      joinLinesNL (((rustLines content).drop (M - 1)).take N) ∧
    apply_line_filter content (some 0) none = apply_line_filter content (some 1) none ∧
    apply_line_filter content (some 0) (some N) =
      apply_line_filter content (some 1) (some N) ∧
    (M > (rustLines content).length →
      apply_line_filter content (some M) none = "" ∧
      apply_line_filter content (some M) (some N) = "") := by
  refine ⟨rfl, rfl, ?_, ?_, rfl, rfl, ?_⟩
  · show (if min (M - 1) (rustLines content).length ≥ (rustLines content).length
        then "" else joinLinesNL ((rustLines content).drop
          (min (M - 1) (rustLines content).length))) = _
    rcases Nat.lt_or_ge (M - 1) (rustLines content).length with h | h
    · rw [Nat.min_eq_left (Nat.le_of_lt h), if_neg (by omega)]
    · rw [Nat.min_eq_right h, if_pos (le_refl _),
        List.drop_eq_nil_of_le h]
      rfl
  · show (if min (M - 1) (rustLines content).length ≥ (rustLines content).length
        then "" else joinLinesNL (((rustLines content).drop
          (min (M - 1) (rustLines content).length)).take
            (min (min (M - 1) (rustLines content).length + N)
              (rustLines content).length - min (M - 1) (rustLines content).length))) = _
    rcases Nat.lt_or_ge (M - 1) (rustLines content).length with h | h
    · rw [Nat.min_eq_left (Nat.le_of_lt h), if_neg (by omega)]
      have harith : min (M - 1 + N) (rustLines content).length - (M - 1) =
          min N (((rustLines content).drop (M - 1)).length) := by
        rw [List.length_drop]; omega
      rw [harith, take_min_len]
    · rw [Nat.min_eq_right h, if_pos (le_refl _), List.drop_eq_nil_of_le h]
      simp [joinLinesNL]
  · intro hM
    constructor
    · show (if min (M - 1) (rustLines content).length ≥ (rustLines content).length
          then "" else joinLinesNL ((rustLines content).drop
            (min (M - 1) (rustLines content).length))) = ""
      rw [if_pos (by omega)]
    · show (if min (M - 1) (rustLines content).length ≥ (rustLines content).length
          then "" else _) = ""
      rw [if_pos (by omega)]

/-- Witness for C6: an over-large offset yields an empty successful result
on a concrete three-line file. -/
theorem line_filter_semantics_witness :
    5 > (rustLines "a\nb\nc").length ∧
    (apply_line_filter "a\nb\nc" (some 5) none = "" ∧
     apply_line_filter "a\nb\nc" (some 5) (some 2) = "") :=
  ⟨by decide, (line_filter_semantics "a\nb\nc" 5 2).2.2.2.2.2.2 (by decide)⟩

/-! ## Login URL extractor lemmas (C7, C10) -/

theorem findHttps_some_starts (l : List Char) (i : Nat)
    (h : findHttps l = some i) :
    List.isPrefixOf httpsChars (l.drop i) = true := by
  induction l generalizing i with
  | nil => simp [findHttps] at h
  | cons c rest ih =>
      by_cases hp : List.isPrefixOf httpsChars (c :: rest) = true
      · simp [findHttps, hp] at h
        subst h
        simpa using hp
      · simp only [findHttps, if_neg hp] at h
        cases hfi : findHttps rest with
        | none => rw [hfi] at h; simp at h
        | some j =>
            rw [hfi] at h
            simp at h
            subst h
            simpa using ih j hfi

theorem findHttps_some_least (l : List Char) (i : Nat)
    (h : findHttps l = some i) :
    ∀ j, j < i → List.isPrefixOf httpsChars (l.drop j) = false := by
  induction l generalizing i with
  | nil => simp [findHttps] at h
  | cons c rest ih =>
      by_cases hp : List.isPrefixOf httpsChars (c :: rest) = true
      · simp [findHttps, hp] at h
        subst h
        intro j hj
        omega
      · simp only [findHttps, if_neg hp] at h
        cases hfi : findHttps rest with
        | none => rw [hfi] at h; simp at h
        | some k =>
            rw [hfi] at h
            simp at h
            subst h
            intro j hj
            cases j with
            | zero => simpa using Bool.eq_false_iff.mpr hp
            | succ j' =>
                have := ih k hfi j' (by omega)
                simpa using this

theorem findHttps_none (l : List Char) (h : findHttps l = none) :
    ∀ j, List.isPrefixOf httpsChars (l.drop j) = false := by
  induction l with
  | nil => intro j; simp [httpsChars, List.isPrefixOf]
  | cons c rest ih =>
      intro j
      by_cases hp : List.isPrefixOf httpsChars (c :: rest) = true
      · simp [findHttps, hp] at h
      · simp only [findHttps, if_neg hp] at h
        cases hfi : findHttps rest with
        | some k => rw [hfi] at h; simp at h
        | none =>
            cases j with
            | zero => simpa using Bool.eq_false_iff.mpr hp
            | succ j' => simpa using ih hfi j'

theorem take_firstTerminator (l : List Char) :
    l.take (match firstTerminatorIdx l with | some i => i | none => l.length) =
      l.takeWhile (fun c => !isUrlTerminator c) := by
  induction l with
  | nil => rfl
  | cons c rest ih =>
      by_cases h : isUrlTerminator c
      · simp [firstTerminatorIdx, h, List.takeWhile_cons]
      · cases hfi : firstTerminatorIdx rest with
        | none =>
            simp only [firstTerminatorIdx, if_neg h, hfi, Option.map_none,
              List.length_cons, List.take_succ_cons, List.takeWhile_cons, h,
              Bool.not_false, if_true]
            rw [← ih, hfi]
            simp
        | some i =>
            simp only [firstTerminatorIdx, if_neg h, hfi, Option.map_some,
              List.take_succ_cons, List.takeWhile_cons, h, Bool.not_false, if_true]
            rw [← ih, hfi]
            simp

theorem takeWhile_all_sat {p : Char → Bool} (l : List Char) :
    ∀ c ∈ l.takeWhile p, p c = true := by
  intro c hc
  exact List.mem_takeWhile_imp hc

theorem firstIdxOfChar_eq_none (t : Char) (l : List Char)
    (h : ∀ c ∈ l, c ≠ t) : firstIdxOfChar t l = none := by
  induction l with
  | nil => rfl
  | cons c rest ih =>
      have hc : ¬c = t := h c (List.mem_cons_self c rest)
      simp only [firstIdxOfChar, if_neg hc]
      rw [ih (fun x hx => h x (List.mem_cons_of_mem c hx))]
      rfl

theorem truncateAtChar_id (t : Char) (l : List Char)
    (h : ∀ c ∈ l, c ≠ t) : truncateAtChar t l = l := by
  rw [truncateAtChar, firstIdxOfChar_eq_none t l h]

theorem takeWhile_append_all {p : Char → Bool} (pre t : List Char)
    (hall : ∀ c ∈ pre, p c = true) :
    (pre ++ t).takeWhile p = pre ++ t.takeWhile p := by
  induction pre with
  | nil => rfl
  | cons c rest ih =>
      have hc : p c = true := hall c (List.mem_cons_self c rest)
      simp only [List.cons_append, List.takeWhile_cons, hc, if_true]
      rw [ih (fun x hx => hall x (List.mem_cons_of_mem c hx))]

theorem isPrefixOf_append (pre t : List Char) :
    List.isPrefixOf pre (pre ++ t) = true := by
  induction pre with
  | nil => cases t <;> rfl
  | cons c rest ih => simp [List.isPrefixOf, ih]

theorem isPrefixOf_exists_append (pre l : List Char)
    (h : List.isPrefixOf pre l = true) : ∃ t, l = pre ++ t := by
  induction pre generalizing l with
  | nil => exact ⟨l, rfl⟩
  | cons c rest ih =>
      cases l with
      | nil => simp [List.isPrefixOf] at h
      | cons b bs =>
          simp only [List.isPrefixOf, Bool.and_eq_true, beq_iff_eq] at h
          obtain ⟨hcb, hrest⟩ := h
          obtain ⟨t, ht⟩ := ih bs hrest
          exact ⟨t, by simp [hcb, ht]⟩

theorem httpsChars_no_terminator :
    ∀ c ∈ httpsChars, (!isUrlTerminator c) = true := by
  decide

theorem no_terminator_ne (c : Char) (h : (!isUrlTerminator c) = true) :
    c ≠ '\x07' ∧ c ≠ '\x1b' := by
  constructor <;> intro hc <;> subst hc <;> exact absurd h (by decide)

theorem extract_login_url_eq_spec (buffer : List Char) :
    extract_login_url buffer = loginUrlSpec buffer := by
  cases hf : findHttps buffer with
  | none => simp only [extract_login_url, loginUrlSpec, hf]
  | some start =>
      simp only [extract_login_url, loginUrlSpec, hf]
      have hpre : List.isPrefixOf httpsChars (buffer.drop start) = true :=
        findHttps_some_starts buffer start hf
      obtain ⟨t, ht⟩ := isPrefixOf_exists_append _ _ hpre
      rw [take_firstTerminator, ht,
        takeWhile_append_all httpsChars t httpsChars_no_terminator]
      have hterm : ∀ c ∈ httpsChars ++ t.takeWhile (fun c => !isUrlTerminator c),
          (!isUrlTerminator c) = true := by
        intro c hc
        rcases List.mem_append.mp hc with h1 | h1
        · exact httpsChars_no_terminator c h1
        · exact takeWhile_all_sat t c h1
      rw [truncateAtChar_id _ _ (fun c hc => (no_terminator_ne c (hterm c hc)).1),
        truncateAtChar_id _ _ (fun c hc => (no_terminator_ne c (hterm c hc)).2)]
      simp [httpsChars]

/-- C7: the extractor agrees with the spec description: the returned URL is
the slice from the first https:// occurrence up to (excluding) the first
terminator (whitespace, double quote, single quote, BEL, ESC) or the end of
the buffer, and a buffer with no https:// occurrence yields no URL.
findHttps is characterized as the least occurrence index. -/
theorem login_url_extractor_spec (buffer : List Char) (s j : Nat) :
    extract_login_url buffer = loginUrlSpec buffer ∧
    (findHttps buffer = none → extract_login_url buffer = none) ∧
    (findHttps buffer = none →
      List.isPrefixOf httpsChars (buffer.drop j) = false) ∧
    (findHttps buffer = some s →
      List.isPrefixOf httpsChars (buffer.drop s) = true ∧
      (j < s → List.isPrefixOf httpsChars (buffer.drop j) = false) ∧
      extract_login_url buffer =
        some ((buffer.drop s).takeWhile (fun c => !isUrlTerminator c))) := by
  refine ⟨extract_login_url_eq_spec buffer, ?_, ?_, ?_⟩
  · intro hf
    rw [extract_login_url_eq_spec, loginUrlSpec, hf]
  · intro hf
    exact findHttps_none buffer hf j
  · intro hf
    refine ⟨findHttps_some_starts buffer s hf,
      fun hj => findHttps_some_least buffer s hf j hj, ?_⟩
    rw [extract_login_url_eq_spec, loginUrlSpec, hf]

/-- Witness for C7 on a concrete buffer whose URL starts at index 3. -/
theorem login_url_extractor_spec_witness :
    findHttps ("go https://a b".toList) = some 3 ∧
    (List.isPrefixOf httpsChars (("go https://a b".toList).drop 3) = true ∧
     (0 < 3 → List.isPrefixOf httpsChars (("go https://a b".toList).drop 0) = false) ∧
     extract_login_url ("go https://a b".toList) =
       some ((("go https://a b".toList).drop 3).takeWhile
         (fun c => !isUrlTerminator c))) :=
  ⟨by decide,
   (login_url_extractor_spec ("go https://a b".toList) 3 0).2.2.2 (by decide)⟩

/-- C10: every URL the extractor returns is non-empty, starts with
https://, and contains no terminator character (whitespace, double quote,
single quote, BEL, ESC). -/
theorem extracted_url_wellformed (buffer url : List Char) (c : Char)
    (h : extract_login_url buffer = some url) :
    url ≠ [] ∧ List.isPrefixOf httpsChars url = true ∧
    (c ∈ url → isUrlTerminator c = false) := by
  rw [extract_login_url_eq_spec, loginUrlSpec] at h
  cases hf : findHttps buffer with
  | none => rw [hf] at h; exact absurd h (by simp)
  | some start =>
      rw [hf] at h
      have hurl : url = (buffer.drop start).takeWhile (fun c => !isUrlTerminator c) :=
        (Option.some.injEq _ _ ▸ h).symm
      obtain ⟨t, ht⟩ :=
        isPrefixOf_exists_append _ _ (findHttps_some_starts buffer start hf)
      rw [hurl, ht, takeWhile_append_all httpsChars t httpsChars_no_terminator]
      refine ⟨by simp [httpsChars], isPrefixOf_append _ _, fun hc => ?_⟩
      rcases List.mem_append.mp hc with h1 | h1
      · have := httpsChars_no_terminator c h1
        simpa using this
      · have := takeWhile_all_sat t c h1
        simpa using this

/-- Witness for C10 at a concrete buffer and its extracted URL. -/
theorem extracted_url_wellformed_witness :
    extract_login_url ("go https://a b".toList) = some ("https://a".toList) ∧
    ("https://a".toList ≠ [] ∧
     List.isPrefixOf httpsChars ("https://a".toList) = true ∧
     ('h' ∈ "https://a".toList → isUrlTerminator 'h' = false)) :=
  ⟨by decide,
   extracted_url_wellformed ("go https://a b".toList) ("https://a".toList) 'h'
     (by decide)⟩

/-! ## Path sandbox (C4) -/

theorem validate_ok_not_forbidden (po : PathOracle) (path : String)
    (fw : Bool) (c : String)
    (h : validate_and_resolve_path po path fw = .ok c) :
    forbiddenPath c = false := by
  unfold validate_and_resolve_path at h
  split at h
  · simp at h
  · split at h
    · simp at h
    · split at h
      · simp at h
      · simp only [Except.ok.injEq] at h
        subst h
        rename_i hguard
        simpa using hguard

/-- C4: any path carrying one of the six forbidden prefixes is rejected
pre-canonicalization with internal error "path outside project root" by
both the read and write handlers, before any filesystem, cache, or agent
effect (in particular before any permission request); a path whose
canonical string carries a forbidden prefix fails with the same error
"path outside project root" from validation and from both handlers (again
with no write-side effects); a successful validation never returns a
canonical path carrying a forbidden prefix; and every validation error
short-circuits the write handler with no effects. -/
theorem sandbox_blacklist (po : PathOracle) (renv : ReadEnv) (wenv : WriteEnv)
    (cache : PermCache) (sid path content : String) (off lim : Option Nat)
    (c : String) (e : RpcError) :
    (forbiddenPath path = true →
      validate_and_resolve_path po path false = .error pathOutsideRpc ∧
      validate_and_resolve_path po path true = .error pathOutsideRpc) ∧
    (validate_and_resolve_path po path false = .ok c → forbiddenPath c = false) ∧
    (validate_and_resolve_path po path true = .ok c → forbiddenPath c = false) ∧
    (forbiddenPath path = true →
      (handle_read_text_file renv path off lim).1 = .error pathOutsideRpc ∧
      (handle_read_text_file renv path off lim).2 = []) ∧
    (forbiddenPath path = true →
      (handle_write_text_file wenv cache sid path content).result =
        .error pathOutsideRpc ∧
      (handle_write_text_file wenv cache sid path content).cache = cache ∧
      (handle_write_text_file wenv cache sid path content).effects = []) ∧
    (validate_and_resolve_path wenv.po path true = .error e →
      (handle_write_text_file wenv cache sid path content).result = .error e ∧
      (handle_write_text_file wenv cache sid path content).cache = cache ∧
      (handle_write_text_file wenv cache sid path content).effects = []) ∧
    (resolveCanonical po path false = .ok c → forbiddenPath c = true →
      validate_and_resolve_path po path false = .error pathOutsideRpc) ∧
    (resolveCanonical po path true = .ok c → forbiddenPath c = true →
      validate_and_resolve_path po path true = .error pathOutsideRpc) ∧
    (resolveCanonical renv.po path false = .ok c → forbiddenPath c = true →
      (handle_read_text_file renv path off lim).1 = .error pathOutsideRpc ∧
      (handle_read_text_file renv path off lim).2 = []) ∧
    (resolveCanonical wenv.po path true = .ok c → forbiddenPath c = true →
      (handle_write_text_file wenv cache sid path content).result =
        .error pathOutsideRpc ∧
      (handle_write_text_file wenv cache sid path content).cache = cache ∧
      (handle_write_text_file wenv cache sid path content).effects = []) := by
  have hpost : ∀ (po2 : PathOracle) (fw : Bool),
      resolveCanonical po2 path fw = .ok c → forbiddenPath c = true →
      validate_and_resolve_path po2 path fw = .error pathOutsideRpc := by
    intro po2 fw hres hforb
    by_cases hpre : forbiddenPath path
    · simp [validate_and_resolve_path, hpre, pathOutsideRpc]
    · simp [validate_and_resolve_path, hpre, hres, hforb, pathOutsideRpc]
  refine ⟨fun h => ⟨?_, ?_⟩, validate_ok_not_forbidden po path false c,
    validate_ok_not_forbidden po path true c, fun h => ?_, fun h => ?_, fun h => ?_,
    hpost po false, hpost po true, fun hres hforb => ?_, fun hres hforb => ?_⟩
  · simp [validate_and_resolve_path, h, pathOutsideRpc]
  · simp [validate_and_resolve_path, h, pathOutsideRpc]
  · have hv : validate_and_resolve_path renv.po path false = .error pathOutsideRpc := by
      simp [validate_and_resolve_path, h, pathOutsideRpc]
    constructor <;> simp [handle_read_text_file, hv]
  · have hv : validate_and_resolve_path wenv.po path true = .error pathOutsideRpc := by
      simp [validate_and_resolve_path, h, pathOutsideRpc]
    refine ⟨?_, ?_, ?_⟩ <;> simp [handle_write_text_file, hv]
  · refine ⟨?_, ?_, ?_⟩ <;> simp [handle_write_text_file, h]
  · have hv := hpost renv.po false hres hforb
    constructor <;> simp [handle_read_text_file, hv]
  · have hv := hpost wenv.po true hres hforb
    refine ⟨?_, ?_, ?_⟩ <;> simp [handle_write_text_file, hv]

/-- Witness for C4: the pre-canonicalization reject at /etc/passwd, and the
post-canonicalization reject at link.txt, whose canonical string /etc/evil
(via the symlink oracle) carries a forbidden prefix. -/
theorem sandbox_blacklist_witness :
    (validate_and_resolve_path samplePathOracle "/etc/passwd" false =
        .error pathOutsideRpc ∧
     validate_and_resolve_path samplePathOracle "/etc/passwd" true =
        .error pathOutsideRpc) ∧
    ((handle_read_text_file sampleReadEnv "/etc/passwd" none none).1 =
        .error pathOutsideRpc ∧
     (handle_read_text_file sampleReadEnv "/etc/passwd" none none).2 = []) ∧
    ((handle_write_text_file sampleWriteEnvAllowAlways [] "s" "/etc/passwd" "hi").result =
        .error pathOutsideRpc ∧
     (handle_write_text_file sampleWriteEnvAllowAlways [] "s" "/etc/passwd" "hi").cache = [] ∧
     (handle_write_text_file sampleWriteEnvAllowAlways [] "s" "/etc/passwd" "hi").effects = []) ∧
    validate_and_resolve_path sampleSymlinkOracle "link.txt" false =
      .error pathOutsideRpc ∧
    validate_and_resolve_path sampleSymlinkOracle "link.txt" true =
      .error pathOutsideRpc ∧
    ((handle_read_text_file sampleSymlinkReadEnv "link.txt" none none).1 =
        .error pathOutsideRpc ∧
     (handle_read_text_file sampleSymlinkReadEnv "link.txt" none none).2 = []) ∧
    ((handle_write_text_file sampleSymlinkWriteEnv [] "s" "link.txt" "hi").result =
        .error pathOutsideRpc ∧
     (handle_write_text_file sampleSymlinkWriteEnv [] "s" "link.txt" "hi").cache = [] ∧
     (handle_write_text_file sampleSymlinkWriteEnv [] "s" "link.txt" "hi").effects = []) :=
  let h := sandbox_blacklist samplePathOracle sampleReadEnv
    sampleWriteEnvAllowAlways [] "s" "/etc/passwd" "hi" none none "x" pathOutsideRpc
  let h2 := sandbox_blacklist sampleSymlinkOracle sampleSymlinkReadEnv
    sampleSymlinkWriteEnv [] "s" "link.txt" "hi" none none "/etc/evil" pathOutsideRpc
  ⟨h.1 (by decide), h.2.2.2.1 (by decide), h.2.2.2.2.1 (by decide),
   h2.2.2.2.2.2.2.1 rfl (by decide),
   h2.2.2.2.2.2.2.2.1 rfl (by decide),
   h2.2.2.2.2.2.2.2.2.1 rfl (by decide),
   h2.2.2.2.2.2.2.2.2.2 rfl (by decide)⟩

/-! ## Permission mediator lemmas (C2, C3) -/

/-- Whether fs::create_dir_all on the canonical path's parent succeeds (it
is skipped when the path has no parent). -/
def dirOk (env : WriteEnv) (cp : String) : Bool :=
  match env.po.parentOf cp with
  | some parent => env.createDirAllOk parent
  | none => true

/-- cacheInsert-effect discriminator. -/
def BridgeEffect.isCacheInsert : BridgeEffect → Bool
  | .cacheInsert _ _ => true
  | _ => false

/-- The directory-creation effects preceding the cache consultation. -/
def dirFx (env : WriteEnv) (cp : String) : List BridgeEffect :=
  match env.po.parentOf cp with
  | some parent => [.fsCreateDirAll parent]
  | none => []

theorem handle_write_reduces (env : WriteEnv) (cache : PermCache)
    (sid path content cp : String)
    (hval : validate_and_resolve_path env.po path true = .ok cp)
    (hdir : dirOk env cp = true) :
    handle_write_text_file env cache sid path content =
      writeWithDirs env cache sid path content cp (dirFx env cp) := by
  simp only [handle_write_text_file, hval, dirFx]
  cases hpar : env.po.parentOf cp with
  | some parent =>
      have hcd : env.createDirAllOk parent = true := by
        have := hdir; rw [dirOk, hpar] at this; exact this
      simp [hcd]
  | none => rfl

/-- A concrete fs/write_text_file request message for witnesses. -/
def sampleWriteMsg : Json :=
  Json.obj [("id", Json.num 2), ("method", Json.str "fs/write_text_file"),
    ("params", Json.obj [("sessionId", Json.str "s1"),
      ("path", Json.str "data.txt"), ("content", Json.str "hello")])]

/-- C2: when the sandbox-validated canonical path already has a cached
decision, the cache decides before any agent contact: a cached AllowAlways
performs the file write, replies the empty object, and issues zero
request_permission calls; a cached RejectAlways replies error -32000
"Permission denied" with no file write and zero request_permission calls,
leaving the cache unchanged in both cases. -/
theorem cached_decision_respected (env : WriteEnv) (denv : DispatchEnv)
    (cache : PermCache) (sid path content cp : String) (msg : Json)
    (hval : validate_and_resolve_path env.po path true = .ok cp)
    (hdir : dirOk env cp = true)
    (hwe : denv.writeEnv = env)
    (hm : (jsonGet msg "method").bind Json.asStr = some "fs/write_text_file")
    (hs : (jsonGet ((jsonGet msg "params").getD (Json.obj [])) "sessionId").bind
      Json.asStr = some sid)
    (hp2 : (jsonGet ((jsonGet msg "params").getD (Json.obj [])) "path").bind
      Json.asStr = some path)
    (hc : (jsonGet ((jsonGet msg "params").getD (Json.obj [])) "content").bind
      Json.asStr = some content) :
    (assocGet cache cp = some .allowAlways →
      (handle_write_text_file env cache sid path content).effects.countP
        (fun e => e.isPermissionRequest) = 0 ∧
      BridgeEffect.fsWrite cp content ∈
        (handle_write_text_file env cache sid path content).effects ∧
      (handle_write_text_file env cache sid path content).cache = cache ∧
      (env.writeOk cp = true →
        (handle_write_text_file env cache sid path content).result = .ok ()) ∧
      (env.writeOk cp = true →
        (process_request denv cache true msg).reply = .result (Json.obj []))) ∧
    (assocGet cache cp = some .rejectAlways →
      (handle_write_text_file env cache sid path content).result =
        .error permissionDeniedRpc ∧
      (handle_write_text_file env cache sid path content).effects.countP
        (fun e => e.isPermissionRequest) = 0 ∧
      (handle_write_text_file env cache sid path content).effects.countP
        (fun e => e.isFsWrite) = 0 ∧
      (handle_write_text_file env cache sid path content).cache = cache ∧
      (process_request denv cache true msg).reply = .error permissionDeniedRpc) := by
  have hw := handle_write_reduces env cache sid path content cp hval hdir
  constructor
  · intro hcache
    have hww : writeWithDirs env cache sid path content cp (dirFx env cp) =
        ⟨(if env.writeOk cp then .ok ()
          else .error (internalErrorRpc.withData "failed to write file")),
         cache, dirFx env cp ++ [.cacheLookup cp, .fsWrite cp content]⟩ := by
      simp only [writeWithDirs, hcache]
    refine ⟨?_, ?_, ?_, ?_, ?_⟩
    · rw [hw, hww]
      cases hpar : env.po.parentOf cp <;>
        simp [dirFx, hpar, List.countP_cons, BridgeEffect.isPermissionRequest]
    · rw [hw, hww]
      cases hpar : env.po.parentOf cp <;> simp [dirFx, hpar]
    · rw [hw, hww]
    · intro hok
      rw [hw, hww]
      simp [hok]
    · intro hok
      have hres : (handle_write_text_file env cache sid path content).result = .ok () := by
        rw [hw, hww]; simp [hok]
      simp only [process_request, hm, Option.bind_some, hs, hp2, hc, hwe]
      simp only [hres]
      simp
  · intro hcache
    have hww : writeWithDirs env cache sid path content cp (dirFx env cp) =
        ⟨.error permissionDeniedRpc, cache, dirFx env cp ++ [.cacheLookup cp]⟩ := by
      simp only [writeWithDirs, hcache]
    refine ⟨?_, ?_, ?_, ?_, ?_⟩
    · rw [hw, hww]
    · rw [hw, hww]
      cases hpar : env.po.parentOf cp <;>
        simp [dirFx, hpar, List.countP_cons, BridgeEffect.isPermissionRequest]
    · rw [hw, hww]
      cases hpar : env.po.parentOf cp <;>
        simp [dirFx, hpar, List.countP_cons, BridgeEffect.isFsWrite]
    · rw [hw, hww]
    · have hres : (handle_write_text_file env cache sid path content).result =
          .error permissionDeniedRpc := by
        rw [hw, hww]
      simp only [process_request, hm, Option.bind_some, hs, hp2, hc, hwe]
      simp only [hres]
      simp

/-- Witness for C2: a cached AllowAlways at the canonical path /work/f.txt
lets a concrete write through with zero permission requests. -/
theorem cached_decision_respected_witness :
    (handle_write_text_file sampleWriteEnvAllowAlways
        [("/work/f.txt", PermissionDecision.allowAlways)]
        "s1" "data.txt" "hello").effects.countP
      (fun e => e.isPermissionRequest) = 0 ∧
    BridgeEffect.fsWrite "/work/f.txt" "hello" ∈
      (handle_write_text_file sampleWriteEnvAllowAlways
        [("/work/f.txt", PermissionDecision.allowAlways)]
        "s1" "data.txt" "hello").effects ∧
    (handle_write_text_file sampleWriteEnvAllowAlways
        [("/work/f.txt", PermissionDecision.allowAlways)]
        "s1" "data.txt" "hello").cache =
      [("/work/f.txt", PermissionDecision.allowAlways)] ∧
    (sampleWriteEnvAllowAlways.writeOk "/work/f.txt" = true →
      (handle_write_text_file sampleWriteEnvAllowAlways
        [("/work/f.txt", PermissionDecision.allowAlways)]
        "s1" "data.txt" "hello").result = .ok ()) ∧
    (sampleWriteEnvAllowAlways.writeOk "/work/f.txt" = true →
      (process_request sampleDispatchEnv
        [("/work/f.txt", PermissionDecision.allowAlways)] true
        sampleWriteMsg).reply = .result (Json.obj [])) :=
  (cached_decision_respected sampleWriteEnvAllowAlways sampleDispatchEnv
    [("/work/f.txt", PermissionDecision.allowAlways)] "s1" "data.txt" "hello"
    "/work/f.txt" sampleWriteMsg rfl rfl rfl rfl rfl rfl rfl).1 rfl

/-- C3: with no cached decision, the permission request is issued exactly
once and its outcome is interpreted exactly as the source's table: selected
allow_once writes without touching the cache; allow_always inserts
AllowAlways and writes; reject_once replies -32000 "Permission denied"
without touching the cache; reject_always inserts RejectAlways and replies
-32000 "Permission denied"; an unknown option id replies -32000 "Unknown
permission option"; a cancelled outcome replies -32000 "Permission request
cancelled"; a failed agent call replies an internal error with data
"permission request failed"; and no error path other than reject_always
touches the cache. -/
theorem permission_outcome_interpretation (env : WriteEnv) (cache : PermCache)
    (sid path content cp oid : String)
    (hval : validate_and_resolve_path env.po path true = .ok cp)
    (hdir : dirOk env cp = true)
    (hnone : assocGet cache cp = none) :
    (handle_write_text_file env cache sid path content).effects.countP
      (fun e => e.isPermissionRequest) = 1 ∧
    (exceptIsError (env.requestPermission (mkPermissionRequest sid path)) = true →
      (handle_write_text_file env cache sid path content).result =
        .error (internalErrorRpc.withData "permission request failed") ∧
      (handle_write_text_file env cache sid path content).cache = cache ∧
      (handle_write_text_file env cache sid path content).effects.countP
        (fun e => e.isCacheInsert) = 0 ∧
      (handle_write_text_file env cache sid path content).effects.countP
        (fun e => e.isFsWrite) = 0) ∧
    (env.requestPermission (mkPermissionRequest sid path) = .ok .cancelled →
      (handle_write_text_file env cache sid path content).result =
        .error ⟨-32000, "Permission request cancelled", none⟩ ∧
      (handle_write_text_file env cache sid path content).cache = cache ∧
      (handle_write_text_file env cache sid path content).effects.countP
        (fun e => e.isCacheInsert) = 0 ∧
      (handle_write_text_file env cache sid path content).effects.countP
        (fun e => e.isFsWrite) = 0) ∧
    (env.requestPermission (mkPermissionRequest sid path) = .ok (.selected "allow_once") →
      BridgeEffect.fsWrite cp content ∈
        (handle_write_text_file env cache sid path content).effects ∧
      (handle_write_text_file env cache sid path content).cache = cache ∧
      (handle_write_text_file env cache sid path content).effects.countP
        (fun e => e.isCacheInsert) = 0 ∧
      (env.writeOk cp = true →
        (handle_write_text_file env cache sid path content).result = .ok ())) ∧
    (env.requestPermission (mkPermissionRequest sid path) = .ok (.selected "allow_always") →
      (handle_write_text_file env cache sid path content).cache =
        assocInsert cp .allowAlways cache ∧
      BridgeEffect.cacheInsert cp .allowAlways ∈
        (handle_write_text_file env cache sid path content).effects ∧
      BridgeEffect.fsWrite cp content ∈
        (handle_write_text_file env cache sid path content).effects ∧
      (env.writeOk cp = true →
        (handle_write_text_file env cache sid path content).result = .ok ())) ∧
    (env.requestPermission (mkPermissionRequest sid path) = .ok (.selected "reject_once") →
      (handle_write_text_file env cache sid path content).result =
        .error permissionDeniedRpc ∧
      (handle_write_text_file env cache sid path content).cache = cache ∧
      (handle_write_text_file env cache sid path content).effects.countP
        (fun e => e.isCacheInsert) = 0 ∧
      (handle_write_text_file env cache sid path content).effects.countP
        (fun e => e.isFsWrite) = 0) ∧
    (env.requestPermission (mkPermissionRequest sid path) = .ok (.selected "reject_always") →
      (handle_write_text_file env cache sid path content).result =
        .error permissionDeniedRpc ∧
      (handle_write_text_file env cache sid path content).cache =
        assocInsert cp .rejectAlways cache ∧
      BridgeEffect.cacheInsert cp .rejectAlways ∈
        (handle_write_text_file env cache sid path content).effects ∧
      (handle_write_text_file env cache sid path content).effects.countP
        (fun e => e.isFsWrite) = 0) ∧
    (oid ≠ "allow_once" → oid ≠ "allow_always" → oid ≠ "reject_once" →
      oid ≠ "reject_always" →
      env.requestPermission (mkPermissionRequest sid path) = .ok (.selected oid) →
      (handle_write_text_file env cache sid path content).result =
        .error ⟨-32000, "Unknown permission option", none⟩ ∧
      (handle_write_text_file env cache sid path content).cache = cache ∧
      (handle_write_text_file env cache sid path content).effects.countP
        (fun e => e.isCacheInsert) = 0 ∧
      (handle_write_text_file env cache sid path content).effects.countP
        (fun e => e.isFsWrite) = 0) := by
  rw [handle_write_reduces env cache sid path content cp hval hdir]
  refine ⟨?_, ?_, ?_, ?_, ?_, ?_, ?_, ?_⟩
  · simp only [writeWithDirs, hnone]
    rcases env.requestPermission (mkPermissionRequest sid path) with e | out
    · cases hpar : env.po.parentOf cp <;>
        simp [dirFx, hpar, List.countP_cons, BridgeEffect.isPermissionRequest]
    · rcases out with oid2 | _
      · by_cases h1 : oid2 = "allow_once"
        · subst h1
          cases hpar : env.po.parentOf cp <;>
            simp [dirFx, hpar, List.countP_cons, BridgeEffect.isPermissionRequest]
        · by_cases h2 : oid2 = "allow_always"
          · subst h2
            cases hpar : env.po.parentOf cp <;>
              simp [dirFx, hpar, List.countP_cons, BridgeEffect.isPermissionRequest]
          · by_cases h3 : oid2 = "reject_once"
            · subst h3
              cases hpar : env.po.parentOf cp <;>
                simp [dirFx, hpar, List.countP_cons, BridgeEffect.isPermissionRequest]
            · by_cases h4 : oid2 = "reject_always"
              · subst h4
                cases hpar : env.po.parentOf cp <;>
                  simp [dirFx, hpar, List.countP_cons, BridgeEffect.isPermissionRequest]
              · cases hpar : env.po.parentOf cp <;>
                  simp [dirFx, hpar, h1, h2, h3, h4, List.countP_cons,
                    BridgeEffect.isPermissionRequest]
      · cases hpar : env.po.parentOf cp <;>
          simp [dirFx, hpar, List.countP_cons, BridgeEffect.isPermissionRequest]
  · intro hperm
    rcases hp : env.requestPermission (mkPermissionRequest sid path) with e | out
    · simp only [writeWithDirs, hnone, hp]
      refine ⟨by trivial, by trivial, ?_, ?_⟩ <;>
        (cases hpar : env.po.parentOf cp <;>
          simp [dirFx, hpar, List.countP_cons, BridgeEffect.isCacheInsert,
            BridgeEffect.isFsWrite])
    · rw [hp] at hperm
      simp [exceptIsError] at hperm
  · intro hperm
    simp only [writeWithDirs, hnone, hperm]
    refine ⟨by trivial, by trivial, ?_, ?_⟩ <;>
      (cases hpar : env.po.parentOf cp <;>
        simp [dirFx, hpar, List.countP_cons, BridgeEffect.isCacheInsert,
          BridgeEffect.isFsWrite])
  · intro hperm
    simp only [writeWithDirs, hnone, hperm]
    refine ⟨?_, by trivial, ?_, fun hok => by simp [hok]⟩
    · cases hpar : env.po.parentOf cp <;> simp [dirFx, hpar]
    · cases hpar : env.po.parentOf cp <;>
        simp [dirFx, hpar, List.countP_cons, BridgeEffect.isCacheInsert]
  · intro hperm
    simp only [writeWithDirs, hnone, hperm]
    have hne : ("allow_always" : String) ≠ "allow_once" := by decide
    simp only [if_neg hne, if_pos rfl]
    refine ⟨by trivial, ?_, ?_, fun hok => by simp [hok]⟩
    · cases hpar : env.po.parentOf cp <;> simp [dirFx, hpar]
    · cases hpar : env.po.parentOf cp <;> simp [dirFx, hpar]
  · intro hperm
    simp only [writeWithDirs, hnone, hperm]
    have h1 : ("reject_once" : String) ≠ "allow_once" := by decide
    have h2 : ("reject_once" : String) ≠ "allow_always" := by decide
    simp only [if_neg h1, if_neg h2, if_pos rfl]
    refine ⟨by trivial, by trivial, ?_, ?_⟩ <;>
      (cases hpar : env.po.parentOf cp <;>
        simp [dirFx, hpar, List.countP_cons, BridgeEffect.isCacheInsert,
          BridgeEffect.isFsWrite])
  · intro hperm
    simp only [writeWithDirs, hnone, hperm]
    have h1 : ("reject_always" : String) ≠ "allow_once" := by decide
    have h2 : ("reject_always" : String) ≠ "allow_always" := by decide
    have h3 : ("reject_always" : String) ≠ "reject_once" := by decide
    simp only [if_neg h1, if_neg h2, if_neg h3, if_pos rfl]
    refine ⟨by trivial, by trivial, ?_, ?_⟩
    · cases hpar : env.po.parentOf cp <;> simp [dirFx, hpar]
    · cases hpar : env.po.parentOf cp <;>
        simp [dirFx, hpar, List.countP_cons, BridgeEffect.isFsWrite]
  · intro h1 h2 h3 h4 hperm
    simp only [writeWithDirs, hnone, hperm]
    simp only [if_neg h1, if_neg h2, if_neg h3, if_neg h4]
    refine ⟨by trivial, by trivial, ?_, ?_⟩ <;>
      (cases hpar : env.po.parentOf cp <;>
        simp [dirFx, hpar, List.countP_cons, BridgeEffect.isCacheInsert,
          BridgeEffect.isFsWrite])

/-- Witness for C3: an agent that selects an unknown option id on a fresh
path produces -32000 "Unknown permission option" and leaves the cache
unchanged. -/
theorem permission_outcome_interpretation_witness :
    (handle_write_text_file sampleWriteEnvBogus [] "s1" "data.txt" "hello").effects.countP
      (fun e => e.isPermissionRequest) = 1 ∧
    ((handle_write_text_file sampleWriteEnvBogus [] "s1" "data.txt" "hello").result =
        .error ⟨-32000, "Unknown permission option", none⟩ ∧
     (handle_write_text_file sampleWriteEnvBogus [] "s1" "data.txt" "hello").cache = [] ∧
     (handle_write_text_file sampleWriteEnvBogus [] "s1" "data.txt" "hello").effects.countP
        (fun e => e.isCacheInsert) = 0 ∧
     (handle_write_text_file sampleWriteEnvBogus [] "s1" "data.txt" "hello").effects.countP
        (fun e => e.isFsWrite) = 0) :=
  let h := permission_outcome_interpretation sampleWriteEnvBogus [] "s1"
    "data.txt" "hello" "/work/f.txt" "bogus" rfl rfl rfl
  ⟨h.1, h.2.2.2.2.2.2.2 (by decide) (by decide) (by decide) (by decide) rfl⟩

/-! ## Pre-initialize gate (C1) and prompt parameter handling (C8) -/

/-- C1 (amended): on an un-initialized connection, every request whose
method is a string other than initialize and other than auth/cli_login —
including session/new, session/prompt, fs/read_text_file and
fs/write_text_file — is answered with error -32601 (method not found),
with no agent call, no filesystem access, no permission-cache access, no
cache change and the flag still false. The auth/cli_login arm of the
source dispatcher carries no initialized check, so the claim's inclusion
of auth/cli_login fails; see the counterexample. -/
theorem preinit_gate (denv : DispatchEnv) (cache : PermCache) (msg : Json)
    (method : String)
    (hm : (jsonGet msg "method").bind Json.asStr = some method)
    (h1 : method ≠ "initialize") (h2 : method ≠ "auth/cli_login") :
    process_request denv cache false msg =
      ⟨.error methodNotFoundRpc, false, cache, []⟩ := by
  simp only [process_request, hm]
  rw [if_neg h1]
  by_cases hb : method = "session/new"
  · simp [hb]
  · by_cases hc : method = "session/prompt"
    · simp [hb, hc]
    · by_cases hd : method = "fs/read_text_file"
      · simp [hb, hc, hd]
      · by_cases he : method = "fs/write_text_file"
        · simp [hb, hc, hd, he]
        · simp [hb, hc, hd, he, h2]

/-- Witness for C1 (amended): session/new before initialize. -/
theorem preinit_gate_witness :
    process_request sampleDispatchEnv [] false
      (Json.obj [("id", Json.str "req-1"), ("method", Json.str "session/new")]) =
      ⟨.error methodNotFoundRpc, false, [], []⟩ :=
  preinit_gate sampleDispatchEnv []
    (Json.obj [("id", Json.str "req-1"), ("method", Json.str "session/new")])
    "session/new" rfl (by decide) (by decide)

/-- An auth/cli_login request for the pre-initialize counterexample. -/
def loginPreinitMsg : Json :=
  Json.obj [("id", Json.num 7), ("method", Json.str "auth/cli_login")]

/-- Counterexample to C1 as stated: auth/cli_login on an un-initialized
connection is not answered with -32601; the dispatcher runs the login flow
(spawning the CLI) and replies with its result. -/
theorem preinit_gate_counterexample :
    (process_request sampleDispatchEnv [] false loginPreinitMsg).reply =
      .result (Json.obj [("status", Json.str "started"),
                         ("loginUrl", Json.str "https://login.example/code")]) ∧
    (process_request sampleDispatchEnv [] false loginPreinitMsg).reply ≠
      .error methodNotFoundRpc ∧
    (process_request sampleDispatchEnv [] false loginPreinitMsg).effects =
      [BridgeEffect.spawnLoginCli] := by
  refine ⟨rfl, ?_, rfl⟩
  intro h
  exact RpcReply.noConfusion h

/-- C8: every session/prompt on an initialized connection is forwarded to
the agent — never rejected with invalid params — as a PromptRequest with a
one-element text content block, where each of sessionId and prompt is the
params field's string value when it is a string and the empty string when
the field is missing or non-string, independently of the other field; the
agent's outcome alone determines the reply. The three substitution cases
(only sessionId defective, only prompt defective, both defective) are
stated explicitly. -/
theorem prompt_lenient_params (denv : DispatchEnv) (cache : PermCache)
    (msg : Json) (sid p : String)
    (hm : (jsonGet msg "method").bind Json.asStr = some "session/prompt") :
    (process_request denv cache true msg).effects =
      [BridgeEffect.agentPromptCall
        ⟨((jsonGet ((jsonGet msg "params").getD (Json.obj [])) "sessionId").bind
            Json.asStr).getD "",
         [ContentBlock.text
            (((jsonGet ((jsonGet msg "params").getD (Json.obj [])) "prompt").bind
                Json.asStr).getD "")]⟩] ∧
    (process_request denv cache true msg).reply =
      (match denv.agentPrompt
          ⟨((jsonGet ((jsonGet msg "params").getD (Json.obj [])) "sessionId").bind
              Json.asStr).getD "",
           [ContentBlock.text
              (((jsonGet ((jsonGet msg "params").getD (Json.obj [])) "prompt").bind
                  Json.asStr).getD "")]⟩ with
       | .ok r => .result r
       | .error e => .error e.into_rpc_error) ∧
    ((jsonGet ((jsonGet msg "params").getD (Json.obj [])) "sessionId").bind
        Json.asStr = none →
      (jsonGet ((jsonGet msg "params").getD (Json.obj [])) "prompt").bind
        Json.asStr = some p →
      (process_request denv cache true msg).effects =
        [BridgeEffect.agentPromptCall ⟨"", [ContentBlock.text p]⟩]) ∧
    ((jsonGet ((jsonGet msg "params").getD (Json.obj [])) "sessionId").bind
        Json.asStr = some sid →
      (jsonGet ((jsonGet msg "params").getD (Json.obj [])) "prompt").bind
        Json.asStr = none →
      (process_request denv cache true msg).effects =
        [BridgeEffect.agentPromptCall ⟨sid, [ContentBlock.text ""]⟩]) ∧
    ((jsonGet ((jsonGet msg "params").getD (Json.obj [])) "sessionId").bind
        Json.asStr = none →
      (jsonGet ((jsonGet msg "params").getD (Json.obj [])) "prompt").bind
        Json.asStr = none →
      (process_request denv cache true msg).effects =
        [BridgeEffect.agentPromptCall ⟨"", [ContentBlock.text ""]⟩]) := by
  have key : (process_request denv cache true msg).effects =
      [BridgeEffect.agentPromptCall
        ⟨((jsonGet ((jsonGet msg "params").getD (Json.obj [])) "sessionId").bind
            Json.asStr).getD "",
         [ContentBlock.text
            (((jsonGet ((jsonGet msg "params").getD (Json.obj [])) "prompt").bind
                Json.asStr).getD "")]⟩] ∧
      (process_request denv cache true msg).reply =
      (match denv.agentPrompt
          ⟨((jsonGet ((jsonGet msg "params").getD (Json.obj [])) "sessionId").bind
              Json.asStr).getD "",
           [ContentBlock.text
              (((jsonGet ((jsonGet msg "params").getD (Json.obj [])) "prompt").bind
                  Json.asStr).getD "")]⟩ with
       | .ok r => .result r
       | .error e => .error e.into_rpc_error) := by
    simp only [process_request, hm]
    cases hr : denv.agentPrompt
        ⟨((jsonGet ((jsonGet msg "params").getD (Json.obj [])) "sessionId").bind
            Json.asStr).getD "",
         [ContentBlock.text
            (((jsonGet ((jsonGet msg "params").getD (Json.obj [])) "prompt").bind
                Json.asStr).getD "")]⟩ <;>
      simp [hr]
  refine ⟨key.1, key.2, fun h1 h2 => ?_, fun h1 h2 => ?_, fun h1 h2 => ?_⟩ <;>
    simp [key.1, h1, h2]

/-- Witness for C8 at a mixed request: a numeric sessionId next to a string
prompt is forwarded with the sessionId replaced by the empty string and the
prompt passed through. -/
theorem prompt_lenient_params_witness :
    (process_request sampleDispatchEnv [] true
      (Json.obj [("id", Json.num 3), ("method", Json.str "session/prompt"),
        ("params", Json.obj [("sessionId", Json.num 42),
          ("prompt", Json.str "hi")])])).effects =
      [BridgeEffect.agentPromptCall ⟨"", [ContentBlock.text "hi"]⟩] ∧
    (process_request sampleDispatchEnv [] true
      (Json.obj [("id", Json.num 3), ("method", Json.str "session/prompt"),
        ("params", Json.obj [("sessionId", Json.num 42),
          ("prompt", Json.str "hi")])])).reply =
      .result (Json.obj [("stopReason", Json.str "end_turn")]) :=
  ⟨(prompt_lenient_params sampleDispatchEnv []
      (Json.obj [("id", Json.num 3), ("method", Json.str "session/prompt"),
        ("params", Json.obj [("sessionId", Json.num 42),
          ("prompt", Json.str "hi")])]) "x" "hi" rfl).2.2.1 rfl rfl,
   (prompt_lenient_params sampleDispatchEnv []
      (Json.obj [("id", Json.num 3), ("method", Json.str "session/prompt"),
        ("params", Json.obj [("sessionId", Json.num 42),
          ("prompt", Json.str "hi")])]) "x" "hi" rfl).2.1⟩

end RatAttack
